import Mathlib

/-!
Shallow embedding of the fim-ai-chat admin surface.

The data model follows `prisma/schema.prisma`; the HTTP handlers follow
`src/app/api/admin/users/route.ts`, the admin codes route and the
database-reset route.  Stateful database access is modelled by explicit
passing of a `Store` value; collaborator capabilities that live outside the
repository (the permission check, bcrypt, code generation, `child_process`
execution, the transaction primitive's success) are parameters of the
handlers.  `DateTime` columns are modelled as integer timestamps except in
the quota module, which needs calendar arithmetic.
-/

namespace FimAI

/-! ## Data model (prisma/schema.prisma) -/

/-- Row of the `users` table. -/
structure User where
  id : String
  email : Option String := none
  username : Option String := none
  password : Option String := none
  role : String := "USER"
  isActive : Bool := true
  canShareAccessCode : Bool := true
  invitedBy : Option String := none
  usedInviteCode : Option String := none
  usedAccessCode : Option String := none
  hostUserId : Option String := none
  createdAt : Int := 0
  updatedAt : Int := 0
deriving Repr, DecidableEq

/-- Row of the `user_settings` table. -/
structure UserSettings where
  id : String
  userId : String
  defaultModelId : Option String := none
  theme : String := "light"
  language : String := "zh-CN"
  enableMarkdown : Bool := true
  enableLatex : Bool := true
  enableCodeHighlight : Bool := true
  messagePageSize : Int := 50
deriving Repr, DecidableEq

/-- Row of the `user_permissions` table. -/
structure UserPermission where
  id : String
  userId : String
  permissions : List String := []
  limitType : String := "none"
  limitPeriod : String := "monthly"
  tokenLimit : Option Int := none
  costLimit : Option Int := none
  tokenUsed : Int := 0
  lastResetAt : Int := 0
  createdAt : Int := 0
  updatedAt : Int := 0
deriving Repr, DecidableEq

/-- Row of the `conversations` table. -/
structure Conversation where
  id : String
  userId : String
  providerId : String := ""
  modelId : String := ""
  title : String := ""
  isArchived : Bool := false
  isPinned : Bool := false
  createdAt : Int := 0
  updatedAt : Int := 0
deriving Repr, DecidableEq

/-- Row of the `messages` table. -/
structure Message where
  id : String
  conversationId : String := ""
  userId : String
  providerId : String := ""
  modelId : String := ""
  role : String := "user"
  content : String := ""
  createdAt : Int := 0
deriving Repr, DecidableEq

/-- Row of the `token_usage` table.  The `cost` column is a float in the
schema; no handler computes with it, so it is carried as an integer number
of micro-dollars. -/
structure TokenUsage where
  id : String
  userId : String
  conversationId : Option String := none
  messageId : Option String := none
  providerId : String := ""
  modelId : String := ""
  promptTokens : Int := 0
  completionTokens : Int := 0
  totalTokens : Int := 0
  isEstimated : Bool := false
  cost : Option Int := none
  createdAt : Int := 0
deriving Repr, DecidableEq

/-- Row of the `invite_codes` table. -/
structure InviteCode where
  id : String
  code : String
  createdBy : String
  isUsed : Bool := false
  usedBy : Option String := none
  usedAt : Option Int := none
  expiresAt : Option Int := none
  maxUses : Int := 1
  currentUses : Int := 0
  createdAt : Int := 0
  updatedAt : Int := 0
deriving Repr, DecidableEq

/-- Row of the `access_codes` table. -/
structure AccessCode where
  id : String
  code : String
  createdBy : String
  isActive : Bool := true
  expiresAt : Option Int := none
  maxUses : Option Int := none
  currentUses : Int := 0
  allowedModelIds : Option String := none
  createdAt : Int := 0
  updatedAt : Int := 0
deriving Repr, DecidableEq

/-- The relational store: the tables the admin surface touches. -/
structure Store where
  users : List User := []
  settings : List UserSettings := []
  userPermissions : List UserPermission := []
  conversations : List Conversation := []
  messages : List Message := []
  tokenUsages : List TokenUsage := []
  inviteCodes : List InviteCode := []
  accessCodes : List AccessCode := []
deriving Repr, DecidableEq

/-! ## JavaScript-truthiness helpers -/

/-- Truthiness of an optional string request field: absent, `null` and `""`
are falsy. -/
def truthy : Option String → Bool
  | none => false
  | some s => !(s == "")

/-- Truthiness of an optional numeric request field: absent, `null` and `0`
are falsy. -/
def truthyInt : Option Int → Bool
  | none => false
  | some n => !(n == 0)

/-- Truthiness of an optional boolean request field: only `true` is truthy. -/
def truthyBool : Option Bool → Bool
  | some true => true
  | _ => false

/-- JavaScript `String.prototype.trim()`: strip leading and trailing
whitespace. -/
def jsTrim (s : String) : String :=
  String.mk (((s.data.dropWhile Char.isWhitespace).reverse.dropWhile
    Char.isWhitespace).reverse)

/-- JavaScript `String.prototype.slice(0, n)`: the first `n` characters. -/
def jsSlice0 (n : Nat) (s : String) : String :=
  String.mk (s.data.take n)

/-- The permission-check collaborator `checkUserPermission(userId, tag)`. -/
abbrev Perm := String → String → Bool

/-! ## GET /api/admin/users -/

/-- Query parameters of `GET /api/admin/users`, after URL parsing; `limit`
and `offset` carry the `parseInt(… ∣∣ default)` results. -/
structure UsersGetReq where
  adminUserId : Option String := none
  includeStats : Bool := false
  role : Option String := none
  isActiveParam : Option String := none
  limit : Int := 50
  offset : Int := 0
deriving Repr, DecidableEq

/-- Modelled from the spec: `getAllUsers` (lib/db/admin, not under src/) lists
users with optional role and active filters and limit/offset pagination;
the aggregated statistics controlled by `includeStats` are omitted from the
projection. -/
def getAllUsers (role : Option String) (isActive : Option Bool)
    (limit offset : Int) (s : Store) : List User :=
  (((s.users.filter (fun u =>
        match role with
        | some r => u.role == r
        | none => true)).filter (fun u =>
        match isActive with
        | some b => u.isActive == b
        | none => true)).drop offset.toNat).take limit.toNat

/-- Handler for `GET /api/admin/users`. -/
def usersGET (perm : Perm) (req : UsersGetReq) (s : Store) :
    Nat × List User :=
  if !(truthy req.adminUserId) then (400, [])
  else if !(perm (req.adminUserId.getD "") "admin_panel") then (403, [])
  else
    (200, getAllUsers req.role (req.isActiveParam.map (fun v => v == "true"))
      req.limit req.offset s)

/-! ## POST /api/admin/users -/

/-- Body of `POST /api/admin/users`.  `role` is `none` when absent, in which
case the destructuring default `'USER'` applies. -/
structure UsersPostReq where
  adminUserId : Option String := none
  username : Option String := none
  email : Option String := none
  password : Option String := none
  role : Option String := none
deriving Repr, DecidableEq

/-- Case-insensitive match of a (nullable) stored username against the
requested one, as in the `mode: 'insensitive'` Prisma query. -/
def usernameMatches (stored : Option String) (candidate : String) : Bool :=
  match stored with
  | some u => u.toLower == candidate.toLower
  | none => false

/-- The duplicate check of `POST /api/admin/users`: a user whose username
matches case-insensitively, or (when an email was supplied) whose email
equals it. -/
def duplicateUser (username : String) (email : Option String)
    (s : Store) : Bool :=
  s.users.any (fun u =>
    usernameMatches u.username username || (truthy email && u.email == email))

/-- Handler for `POST /api/admin/users`.  `hash` stands for `bcrypt.hash`,
`newUserId`, `newSettingsId`, `newPermId` for the cuids the store would
assign, `now` for the creation timestamp.  The source also sends
`allowedModelIds`, `canShareAccess` and `isActive` when creating the
permission row; those columns do not exist on `UserPermission` in the
schema, so only the schema's columns are represented. -/
def usersPOST (perm : Perm) (hash : String → String)
    (newUserId newSettingsId newPermId : String) (now : Int)
    (req : UsersPostReq) (s : Store) : Nat × Store :=
  if !(truthy req.adminUserId) || !(truthy req.username) then (400, s)
  else if !(truthy req.password) then (400, s)
  else if !(perm (req.adminUserId.getD "") "admin_panel") then (403, s)
  else if duplicateUser (req.username.getD "") req.email s then (400, s)
  else
    let role := req.role.getD "USER"
    let user : User :=
      { id := newUserId, username := req.username, email := req.email
        password := some (hash (req.password.getD ""))
        role := role, isActive := true, createdAt := now, updatedAt := now }
    let st : UserSettings := { id := newSettingsId, userId := newUserId }
    let s1 : Store :=
      { s with users := s.users ++ [user], settings := s.settings ++ [st] }
    let s2 : Store :=
      if role != "ADMIN" then
        { s1 with userPermissions := s1.userPermissions ++
            [{ id := newPermId, userId := newUserId, tokenLimit := none
               createdAt := now, updatedAt := now, lastResetAt := now }] }
      else s1
    (201, s2)

/-! ## PATCH /api/admin/users -/

/-- The `updateData` rest-fields of the `updatePermissions` action. -/
structure PermissionsUpdate where
  permissions : Option (List String) := none
  limitType : Option String := none
  limitPeriod : Option String := none
  tokenLimit : Option (Option Int) := none
  costLimit : Option (Option Int) := none
deriving Repr, DecidableEq

/-- Body of `PATCH /api/admin/users`. -/
structure UsersPatchReq where
  adminUserId : Option String := none
  userId : Option String := none
  action : Option String := none
  isActive : Option Bool := none
  canShareAccessCode : Option Bool := none
  permissionsUpdate : PermissionsUpdate := {}
deriving Repr, DecidableEq

/-- Modelled from the spec: `updateUserStatus` (lib/db/admin, not under
src/) sets the user's active flag; the store's update throws when the user
does not exist, which the handler surfaces as 500. -/
def updateUserStatus (userId : String) (isActive : Option Bool) (now : Int)
    (s : Store) : Option Store :=
  if s.users.any (fun u => u.id == userId) then
    some { s with users := s.users.map (fun u =>
      if u.id == userId then
        { u with isActive := isActive.getD u.isActive, updatedAt := now }
      else u) }
  else none

/-- Modelled from the spec: `updateUserAccessCodePermission` (lib/db/admin,
not under src/) sets whether the user may distribute access codes. -/
def updateUserAccessCodePermission (userId : String)
    (canShare : Option Bool) (now : Int) (s : Store) : Option Store :=
  if s.users.any (fun u => u.id == userId) then
    some { s with users := s.users.map (fun u =>
      if u.id == userId then
        { u with canShareAccessCode := canShare.getD u.canShareAccessCode
                 updatedAt := now }
      else u) }
  else none

/-- Modelled from the spec: `updateUserPermissions` (lib/db/admin, not under
src/) applies arbitrary permission/quota fields to the user's permission
row; the update throws when the row does not exist. -/
def updateUserPermissions (userId : String) (upd : PermissionsUpdate)
    (now : Int) (s : Store) : Option Store :=
  if s.userPermissions.any (fun p => p.userId == userId) then
    some { s with userPermissions := s.userPermissions.map (fun p =>
      if p.userId == userId then
        { p with permissions := upd.permissions.getD p.permissions
                 limitType := upd.limitType.getD p.limitType
                 limitPeriod := upd.limitPeriod.getD p.limitPeriod
                 tokenLimit := upd.tokenLimit.getD p.tokenLimit
                 costLimit := upd.costLimit.getD p.costLimit
                 updatedAt := now }
      else p) }
  else none

/-- Handler for `PATCH /api/admin/users`. -/
def usersPATCH (perm : Perm) (now : Int) (req : UsersPatchReq) (s : Store) :
    Nat × Store :=
  if !(truthy req.adminUserId) || !(truthy req.userId) ||
      !(truthy req.action) then (400, s)
  else if !(perm (req.adminUserId.getD "") "admin_panel") then (403, s)
  else
    match req.action.getD "" with
    | "updateStatus" =>
      if req.adminUserId == req.userId && !(truthyBool req.isActive) then
        (400, s)
      else
        match updateUserStatus (req.userId.getD "") req.isActive now s with
        | some s2 => (200, s2)
        | none => (500, s)
    | "updateAccessCodePermission" =>
      match updateUserAccessCodePermission (req.userId.getD "")
          req.canShareAccessCode now s with
      | some s2 => (200, s2)
      | none => (500, s)
    | "updatePermissions" =>
      match updateUserPermissions (req.userId.getD "") req.permissionsUpdate
          now s with
      | some s2 => (200, s2)
      | none => (500, s)
    | _ => (400, s)

/-! ## DELETE /api/admin/users -/

/-- Body of `DELETE /api/admin/users`. -/
structure UsersDeleteReq where
  adminUserId : Option String := none
  userId : Option String := none
deriving Repr, DecidableEq

/-- Body of the `prisma.$transaction` in `DELETE /api/admin/users`: delete
the user's messages, conversations, token usage rows, permission row, the
invite and access codes the user created, and finally the user row, in
that order. -/
def txDeleteUser (userId : String) (s : Store) : Store :=
  let s1 := { s with messages :=
    s.messages.filter (fun m => !(m.userId == userId)) }
  let s2 := { s1 with conversations :=
    s1.conversations.filter (fun c => !(c.userId == userId)) }
  let s3 := { s2 with tokenUsages :=
    s2.tokenUsages.filter (fun t => !(t.userId == userId)) }
  let s4 := { s3 with userPermissions :=
    s3.userPermissions.filter (fun p => !(p.userId == userId)) }
  let s5 := { s4 with inviteCodes :=
    s4.inviteCodes.filter (fun c => !(c.createdBy == userId)) }
  let s6 := { s5 with accessCodes :=
    s5.accessCodes.filter (fun c => !(c.createdBy == userId)) }
  { s6 with users := s6.users.filter (fun u => !(u.id == userId)) }

/-- Handler for `DELETE /api/admin/users`.  `txOk` is whether the store's
transactional primitive commits; when it does not, the exception reaches
the handler's catch block and nothing takes effect. -/
def usersDELETE (perm : Perm) (txOk : Bool) (req : UsersDeleteReq)
    (s : Store) : Nat × Store :=
  if !(truthy req.adminUserId) || !(truthy req.userId) then (400, s)
  else if !(perm (req.adminUserId.getD "") "admin_panel") then (403, s)
  else if req.adminUserId == req.userId then (400, s)
  else if !(s.users.any (fun u => u.id == req.userId.getD "")) then (404, s)
  else if txOk then (200, txDeleteUser (req.userId.getD "") s)
  else (500, s)

/-! ## /api/admin/codes -/

/-- Insert into a list sorted descending by `keyOf`. -/
def insertDesc (keyOf : α → Int) (x : α) : List α → List α
  | [] => [x]
  | y :: ys =>
    if keyOf x ≥ keyOf y then x :: y :: ys else y :: insertDesc keyOf x ys

/-- Sort descending by `keyOf`, as in `orderBy: { createdAt: 'desc' }`. -/
def sortDesc (keyOf : α → Int) : List α → List α
  | [] => []
  | x :: xs => insertDesc keyOf x (sortDesc keyOf xs)

/-- Query parameters of `GET /api/admin/codes`; `type` already carries the
`∣∣ 'invite'` default. -/
structure CodesGetReq where
  adminUserId : Option String := none
  type : String := "invite"
  limit : Int := 50
  offset : Int := 0
deriving Repr, DecidableEq

/-- Handler for `GET /api/admin/codes`: lists invite or access codes newest
first with skip/take pagination. -/
def codesGET (perm : Perm) (req : CodesGetReq) (s : Store) :
    Nat × Option (List InviteCode ⊕ List AccessCode) :=
  if !(truthy req.adminUserId) then (400, none)
  else if !(perm (req.adminUserId.getD "") "admin_panel") then (403, none)
  else if req.type == "invite" then
    (200, some (Sum.inl
      (((sortDesc (fun c => c.createdAt) s.inviteCodes).drop
          req.offset.toNat).take req.limit.toNat)))
  else if req.type == "access" then
    (200, some (Sum.inr
      (((sortDesc (fun c => c.createdAt) s.accessCodes).drop
          req.offset.toNat).take req.limit.toNat)))
  else (400, none)

/-- Body of `POST /api/admin/codes`; `role` is destructured by the source
but never used. -/
structure CodesPostReq where
  adminUserId : Option String := none
  type : Option String := none
  role : Option String := none
  maxUses : Option Int := none
  expiresAt : Option Int := none
deriving Repr, DecidableEq

/-- Handler for `POST /api/admin/codes`.  `generatedCode` stands for the
`generateInviteCode()` collaborator (reused for both kinds), `newCodeId`
for the cuid the store would assign, `now` for the creation timestamp. -/
def codesPOST (perm : Perm) (generatedCode newCodeId : String) (now : Int)
    (req : CodesPostReq) (s : Store) : Nat × Store :=
  if !(truthy req.adminUserId) || !(truthy req.type) then (400, s)
  else if !(perm (req.adminUserId.getD "") "admin_panel") then (403, s)
  else if req.type == some "invite" then
    let c : InviteCode :=
      { id := newCodeId, code := generatedCode
        createdBy := req.adminUserId.getD ""
        maxUses := if truthyInt req.maxUses then req.maxUses.getD 1 else 1
        expiresAt := if truthyInt req.expiresAt then req.expiresAt else none
        createdAt := now, updatedAt := now }
    (200, { s with inviteCodes := s.inviteCodes ++ [c] })
  else if req.type == some "access" then
    let c : AccessCode :=
      { id := newCodeId, code := generatedCode
        createdBy := req.adminUserId.getD ""
        expiresAt := if truthyInt req.expiresAt then req.expiresAt else none
        createdAt := now, updatedAt := now }
    (200, { s with accessCodes := s.accessCodes ++ [c] })
  else (400, s)

/-- Body of `DELETE /api/admin/codes`. -/
structure CodesDeleteReq where
  adminUserId : Option String := none
  codeId : Option String := none
  type : Option String := none
deriving Repr, DecidableEq

/-- Handler for `DELETE /api/admin/codes`.  The source performs no existence
check: `prisma.….delete` throws `P2025` when no row has the id, the catch
block answers 500. -/
def codesDELETE (perm : Perm) (req : CodesDeleteReq) (s : Store) :
    Nat × Store :=
  if !(truthy req.adminUserId) || !(truthy req.codeId) ||
      !(truthy req.type) then (400, s)
  else if !(perm (req.adminUserId.getD "") "admin_panel") then (403, s)
  else if req.type == some "invite" then
    if s.inviteCodes.any (fun c => c.id == req.codeId.getD "") then
      (200, { s with inviteCodes :=
        s.inviteCodes.filter (fun c => !(c.id == req.codeId.getD "")) })
    else (500, s)
  else if req.type == some "access" then
    if s.accessCodes.any (fun c => c.id == req.codeId.getD "") then
      (200, { s with accessCodes :=
        s.accessCodes.filter (fun c => !(c.id == req.codeId.getD "")) })
    else (500, s)
  else (400, s)

/-- Body of `PATCH /api/admin/codes`. -/
structure CodesPatchReq where
  adminUserId : Option String := none
  codeId : Option String := none
  type : Option String := none
  action : Option String := none
deriving Repr, DecidableEq

/-- Handler for `PATCH /api/admin/codes`.  The `toggle` action negates
`isUsed` (invite) or `isActive` (access); the store's update also advances
the `@updatedAt`-maintained `updatedAt` column to `now`. -/
def codesPATCH (perm : Perm) (now : Int) (req : CodesPatchReq) (s : Store) :
    Nat × Store :=
  if !(truthy req.adminUserId) || !(truthy req.codeId) ||
      !(truthy req.type) || !(truthy req.action) then (400, s)
  else if !(perm (req.adminUserId.getD "") "admin_panel") then (403, s)
  else if req.type == some "invite" then
    if req.action == some "toggle" then
      match s.inviteCodes.find? (fun c => c.id == req.codeId.getD "") with
      | none => (404, s)
      | some c =>
        (200, { s with inviteCodes := s.inviteCodes.map (fun x =>
          if x.id == req.codeId.getD "" then
            { x with isUsed := !c.isUsed, updatedAt := now }
          else x) })
    else (400, s)
  else if req.type == some "access" then
    if req.action == some "toggle" then
      match s.accessCodes.find? (fun c => c.id == req.codeId.getD "") with
      | none => (404, s)
      | some c =>
        (200, { s with accessCodes := s.accessCodes.map (fun x =>
          if x.id == req.codeId.getD "" then
            { x with isActive := !c.isActive, updatedAt := now }
          else x) })
    else (400, s)
  else (400, s)

/-! ## /api/admin/database-reset -/

/-- Outcome of one `execAsync` call: resolution with captured stdout and
stderr, or rejection (non-zero exit or the 30s timeout) carrying a message
and the captured streams. -/
inductive ExecResult where
  | ok (stdoutCap stderrCap : String)
  | err (message stdoutCap stderrCap : String)
deriving Repr, DecidableEq

/-- Response body of the database-reset POST handler. -/
inductive ResetBody where
  | empty
  | success (resetOutput seedOutput : String)
  | failed (message stdoutCap stderrCap : String)
deriving Repr, DecidableEq

/-- Body of `POST /api/admin/database-reset`. -/
structure ResetPostReq where
  adminUserId : Option String := none
  confirmText : Option String := none
deriving Repr, DecidableEq

/-- Handler for `POST /api/admin/database-reset`.  `runCmd` is the
`execAsync` collaborator, taking the command line and the timeout in
milliseconds; the returned list records every shell command actually
executed, in order, with the timeout it was given. -/
def databaseResetPOST (perm : Perm) (runCmd : String → Nat → ExecResult)
    (req : ResetPostReq) : (Nat × ResetBody) × List (String × Nat) :=
  if !(truthy req.adminUserId) then ((400, .empty), [])
  else if !(perm (req.adminUserId.getD "") "admin_panel") then
    ((403, .empty), [])
  else if !(req.confirmText == some "RESET DATABASE") then
    ((400, .empty), [])
  else
    match runCmd "npm run db:reset" 30000 with
    | .err m so se =>
      ((500, .failed m so se), [("npm run db:reset", 30000)])
    | .ok resetOut _ =>
      match runCmd "npm run db:seed" 30000 with
      | .err m so se =>
        ((500, .failed m so se),
          [("npm run db:reset", 30000), ("npm run db:seed", 30000)])
      | .ok seedOut _ =>
        ((200, .success (jsTrim resetOut) (jsTrim seedOut)),
          [("npm run db:reset", 30000), ("npm run db:seed", 30000)])

/-- Handler for `GET /api/admin/database-reset`: static information, no
side effect; only the status matters here. -/
def databaseResetGET (perm : Perm) (adminUserId : Option String) : Nat :=
  if !(truthy adminUserId) then 400
  else if !(perm (adminUserId.getD "") "admin_panel") then 403
  else 200

/-! ## Chat title editing (src/components/MaterialChatLayout.tsx) -/

/-- The transient title-editing state of `MaterialChatLayout`. -/
structure TitleEditState where
  editableTitle : String
  isEditingTitle : Bool
deriving Repr, DecidableEq

/-- `handleTitleSave`: trims the edited title, truncates it to 8
characters, and calls `onChatTitleChange` with it only when the result is
nonempty; the first component is the argument of that call when it is
made.  Editing mode always ends. -/
def handleTitleSave (st : TitleEditState) : Option String × TitleEditState :=
  let trimmedTitle := jsSlice0 8 (jsTrim st.editableTitle)
  ((if trimmedTitle == "" then none else some trimmedTitle),
    { st with isEditingTitle := false })

/-- `handleTitleKeyPress`: the Enter key triggers `handleTitleSave`; other
keys do nothing. -/
def handleTitleKeyPress (key : String) (st : TitleEditState) :
    Option String × TitleEditState :=
  if key == "Enter" then handleTitleSave st else (none, st)

/-! ## Quota accounting

The reset-and-count logic lives in the library layer, which is not among
the provided sources; only the `UserPermission` columns it works on are
(prisma/schema.prisma).  The definitions below are therefore modelled from
the spec.  Calendar months require civil-calendar arithmetic, embedded via
the standard days-from-civil conversion. -/

/-- Gregorian leap-year test. -/
def isLeapYear (y : Int) : Bool :=
  y % 4 == 0 && (y % 100 != 0 || y % 400 == 0)

/-- Length in days of month `m` (1–12) of year `y`. -/
def daysInMonth (y : Int) (m : Nat) : Nat :=
  if m == 2 then (if isLeapYear y then 29 else 28)
  else if m == 4 || m == 6 || m == 9 || m == 11 then 30
  else 31

/-- Days since 1970-01-01 of the civil date `y-m-d` (proleptic Gregorian). -/
def daysFromCivil (y : Int) (m d : Nat) : Int :=
  let yAdj : Int := if m ≤ 2 then y - 1 else y
  let era : Int := Int.ediv yAdj 400
  let yoe : Nat := (Int.emod yAdj 400).toNat
  let mp : Nat := (m + 9) % 12
  let doy : Nat := (153 * mp + 2) / 5 + d - 1
  let doe : Nat := yoe * 365 + yoe / 4 - yoe / 100 + doy
  era * 146097 + (doe : Int) - 719468

/-- A civil timestamp: date plus milliseconds within the day. -/
structure CivilTime where
  year : Int
  month : Nat
  day : Nat
  msOfDay : Nat
deriving Repr, DecidableEq

/-- Milliseconds since the epoch of a civil timestamp. -/
def CivilTime.toMs (t : CivilTime) : Int :=
  daysFromCivil t.year t.month t.day * 86400000 + (t.msOfDay : Int)

/-- Modelled from the spec: adding `n` calendar months keeps the
day-of-month and time, clamping the day to the target month's length. -/
def addMonths (t : CivilTime) (n : Nat) : CivilTime :=
  let total : Int := t.year * 12 + ((t.month : Int) - 1) + (n : Int)
  let ny : Int := Int.ediv total 12
  let nm : Nat := (Int.emod total 12).toNat + 1
  { t with year := ny, month := nm, day := min t.day (daysInMonth ny nm) }

/-- Modelled from the spec: the elapsed time since `lastReset` exceeds the
duration implied by `limitPeriod` — daily = 24h, monthly = 1 calendar
month, quarterly = 3 months, yearly = 1 year. -/
def periodExceeded (period : String) (lastReset now : CivilTime) : Bool :=
  if period == "daily" then now.toMs - lastReset.toMs > 86400000
  else if period == "monthly" then now.toMs > (addMonths lastReset 1).toMs
  else if period == "quarterly" then now.toMs > (addMonths lastReset 3).toMs
  else if period == "yearly" then now.toMs > (addMonths lastReset 12).toMs
  else false

/-- The quota fields of a `UserPermission` row, with the reset timestamp as
a civil time so that calendar periods are expressible. -/
structure QuotaCounter where
  limitType : String := "none"
  limitPeriod : String := "monthly"
  tokenLimit : Option Int := none
  costLimit : Option Int := none
  tokenUsed : Int := 0
  lastResetAt : CivilTime
deriving Repr, DecidableEq

/-- Modelled from the spec: when the period boundary has been crossed the
counter zeroes and `lastResetAt` advances to `now`; otherwise nothing
changes. -/
def maybeReset (q : QuotaCounter) (now : CivilTime) : QuotaCounter :=
  if periodExceeded q.limitPeriod q.lastResetAt now then
    { q with tokenUsed := 0, lastResetAt := now }
  else q

/-- Modelled from the spec: record `tokens` of new usage, resetting the
counter first when the period boundary has been crossed. -/
def applyUsage (q : QuotaCounter) (now : CivilTime) (tokens : Int) :
    QuotaCounter :=
  let q1 := maybeReset q now
  { q1 with tokenUsed := q1.tokenUsed + tokens }

/-- Store fixture used by concrete witnesses: two users, with rows of every
dependent kind owned by each. -/
def sampleStore : Store :=
  { users := [{ id := "u1" }, { id := "u2" }]
    settings := [{ id := "s1", userId := "u2" }]
    userPermissions := [{ id := "p1", userId := "u2" }, { id := "p2", userId := "u1" }]
    conversations := [{ id := "cv1", userId := "u2" }, { id := "cv2", userId := "u1" }]
    messages := [{ id := "m1", userId := "u2" }, { id := "m2", userId := "u1" }]
    tokenUsages := [{ id := "t1", userId := "u2" }]
    inviteCodes := [{ id := "ic1", code := "fimaiA", createdBy := "u2" },
                    { id := "ic2", code := "fimaiB", createdBy := "u1" }]
    accessCodes := [{ id := "ac1", code := "fimaiC", createdBy := "u2" }] }

/-! ## Claim theorems -/

/-- C8: a permitted database-reset POST whose `confirmText` is not exactly
the literal `"RESET DATABASE"` answers 400 and executes no shell command. -/
theorem reset_rejects_wrong_confirmation
    (perm : Perm) (runCmd : String → Nat → ExecResult)
    (aid : String) (confirm : Option String)
    (ha : aid ≠ "")
    (hperm : perm aid "admin_panel" = true)
    (hc : confirm ≠ some "RESET DATABASE") :
    databaseResetPOST perm runCmd ⟨some aid, confirm⟩ =
      ((400, ResetBody.empty), []) := by
  have ha2 : (aid == "") = false := by simp [ha]
  have hc2 : (confirm == some "RESET DATABASE") = false := by simp [hc]
  simp [databaseResetPOST, truthy, ha2, hperm, hc2]

/-- Witness for C8 at a concrete denied confirmation text. -/
theorem reset_rejects_wrong_confirmation_witness :
    ("admin" : String) ≠ "" ∧
    (some "reset database" : Option String) ≠ some "RESET DATABASE" ∧
    databaseResetPOST (fun _ _ => true) (fun _ _ => ExecResult.ok "" "")
      ⟨some "admin", some "reset database"⟩ = ((400, ResetBody.empty), []) :=
  ⟨by decide, by decide,
    reset_rejects_wrong_confirmation (fun _ _ => true)
      (fun _ _ => ExecResult.ok "" "") "admin" (some "reset database")
      (by decide) rfl (by decide)⟩

/-- C3: a permitted, confirmed database-reset POST runs `npm run db:reset`
before `npm run db:seed`, each with a 30000 ms timeout; a failing first
command aborts the second and is reported (message, stdout, stderr) with
500; when both succeed their stdout is reported with 200; a failing second
command is likewise reported with 500. -/
theorem reset_runs_reset_then_seed
    (perm : Perm) (runCmd : String → Nat → ExecResult) (aid : String)
    (ha : aid ≠ "") (hperm : perm aid "admin_panel" = true) :
    (∀ m so se, runCmd "npm run db:reset" 30000 = ExecResult.err m so se →
      databaseResetPOST perm runCmd ⟨some aid, some "RESET DATABASE"⟩ =
        ((500, ResetBody.failed m so se), [("npm run db:reset", 30000)])) ∧
    (∀ ro re m so se, runCmd "npm run db:reset" 30000 = ExecResult.ok ro re →
      runCmd "npm run db:seed" 30000 = ExecResult.err m so se →
      databaseResetPOST perm runCmd ⟨some aid, some "RESET DATABASE"⟩ =
        ((500, ResetBody.failed m so se),
          [("npm run db:reset", 30000), ("npm run db:seed", 30000)])) ∧
    (∀ ro re so2 se2, runCmd "npm run db:reset" 30000 = ExecResult.ok ro re →
      runCmd "npm run db:seed" 30000 = ExecResult.ok so2 se2 →
      databaseResetPOST perm runCmd ⟨some aid, some "RESET DATABASE"⟩ =
        ((200, ResetBody.success (jsTrim ro) (jsTrim so2)),
          [("npm run db:reset", 30000), ("npm run db:seed", 30000)])) := by
  have ha2 : (aid == "") = false := by simp [ha]
  refine ⟨?_, ?_, ?_⟩ <;> intros <;>
    simp_all [databaseResetPOST, truthy, ha2, hperm]

/-- Witness for C3: both steps succeed with concrete outputs. -/
theorem reset_runs_reset_then_seed_witness :
    databaseResetPOST (fun _ _ => true)
      (fun c _ => if c == "npm run db:reset" then ExecResult.ok "r" ""
        else ExecResult.ok "s" "")
      ⟨some "admin", some "RESET DATABASE"⟩ =
      ((200, ResetBody.success (jsTrim "r") (jsTrim "s")),
        [("npm run db:reset", 30000), ("npm run db:seed", 30000)]) :=
  (reset_runs_reset_then_seed (fun _ _ => true)
      (fun c _ => if c == "npm run db:reset" then ExecResult.ok "r" ""
        else ExecResult.ok "s" "") "admin" (by decide) rfl).2.2
    "r" "" "s" "" (by decide) (by decide)

/-- C10: a permitted invite-code POST creates a code whose `maxUses` is the
request's value when that value is truthy and 1 when it is 0, null or
omitted. -/
theorem invite_maxUses_defaulting
    (perm : Perm) (generatedCode newCodeId : String) (now : Int)
    (aid : String) (maxUses expiresAt : Option Int) (s : Store)
    (ha : aid ≠ "") (hperm : perm aid "admin_panel" = true) :
    (codesPOST perm generatedCode newCodeId now
      ⟨some aid, some "invite", none, maxUses, expiresAt⟩ s).1 = 200 ∧
    (∀ n : Int, maxUses = some n → n ≠ 0 →
      ((codesPOST perm generatedCode newCodeId now
        ⟨some aid, some "invite", none, maxUses, expiresAt⟩ s).2.inviteCodes.map
          (fun c => c.maxUses)) =
        s.inviteCodes.map (fun c => c.maxUses) ++ [n]) ∧
    ((maxUses = none ∨ maxUses = some 0) →
      ((codesPOST perm generatedCode newCodeId now
        ⟨some aid, some "invite", none, maxUses, expiresAt⟩ s).2.inviteCodes.map
          (fun c => c.maxUses)) =
        s.inviteCodes.map (fun c => c.maxUses) ++ [1]) := by
  have ha2 : (aid == "") = false := by simp [ha]
  refine ⟨?_, ?_, ?_⟩
  · simp [codesPOST, truthy, ha2, hperm]
  · intro n hn hn0
    simp [codesPOST, truthy, truthyInt, ha2, hperm, hn, hn0]
  · rintro (hn | hn) <;> simp [codesPOST, truthy, truthyInt, ha2, hperm, hn]

/-- Witness for C10 at `maxUses = some 0`, which yields 1. -/
theorem invite_maxUses_defaulting_witness :
    ((codesPOST (fun _ _ => true) "fimaiX" "ic9" 3
      ⟨some "admin", some "invite", none, some 0, none⟩
      ({} : Store)).2.inviteCodes.map (fun c => c.maxUses)) = [1] :=
  (invite_maxUses_defaulting (fun _ _ => true) "fimaiX" "ic9" 3 "admin"
      (some 0) none {} (by decide) rfl).2.2 (Or.inr rfl)

/-- C9 counterexample: on a whitespace-only edited title the save makes no
`onChatTitleChange` call at all, while the claim says the callback receives
`editableTitle.trim().slice(0, 8)` (here the empty string). -/
theorem title_save_blank_makes_no_callback :
    (handleTitleSave { editableTitle := "   ", isEditingTitle := true }).1 ≠
      some (jsSlice0 8 (jsTrim "   ")) := by
  decide

/-- C9 as amended: saving computes `editableTitle.trim().slice(0, 8)`,
invokes the callback with exactly that string when it is nonempty and makes
no call when it is empty, and always leaves editing mode; the Enter key
triggers the same save. -/
theorem title_save_trim_truncate (st : TitleEditState) :
    handleTitleSave st =
      ((if jsSlice0 8 (jsTrim st.editableTitle) == "" then none
        else some (jsSlice0 8 (jsTrim st.editableTitle))),
       { st with isEditingTitle := false }) ∧
    handleTitleKeyPress "Enter" st = handleTitleSave st := by
  exact ⟨rfl, by simp [handleTitleKeyPress]⟩

/-- C6: the quota counter zeroes (and then receives the new usage) exactly
when the elapsed time since `lastResetAt` exceeds the configured period —
daily = 24h in milliseconds, monthly / quarterly / yearly = 1 / 3 / 12
calendar months — and `lastResetAt` then advances to now; before the
boundary the counter only accumulates and `lastResetAt` is unchanged. -/
theorem quota_resets_exactly_at_boundary
    (q : QuotaCounter) (now : CivilTime) (tokens : Int) :
    (periodExceeded q.limitPeriod q.lastResetAt now = true →
      applyUsage q now tokens =
        { q with tokenUsed := tokens, lastResetAt := now }) ∧
    (periodExceeded q.limitPeriod q.lastResetAt now = false →
      applyUsage q now tokens =
        { q with tokenUsed := q.tokenUsed + tokens }) ∧
    (q.limitPeriod = "daily" →
      (periodExceeded q.limitPeriod q.lastResetAt now = true ↔
        now.toMs - q.lastResetAt.toMs > 86400000)) ∧
    (q.limitPeriod = "monthly" →
      (periodExceeded q.limitPeriod q.lastResetAt now = true ↔
        now.toMs > (addMonths q.lastResetAt 1).toMs)) ∧
    (q.limitPeriod = "quarterly" →
      (periodExceeded q.limitPeriod q.lastResetAt now = true ↔
        now.toMs > (addMonths q.lastResetAt 3).toMs)) ∧
    (q.limitPeriod = "yearly" →
      (periodExceeded q.limitPeriod q.lastResetAt now = true ↔
        now.toMs > (addMonths q.lastResetAt 12).toMs)) := by
  refine ⟨?_, ?_, ?_, ?_, ?_, ?_⟩
  · intro h; simp [applyUsage, maybeReset, h]
  · intro h; simp [applyUsage, maybeReset, h]
  all_goals (intro h; rw [h]; simp [periodExceeded])

/-- Witness for C6: a monthly counter more than one calendar month past its
last reset zeroes and restarts at the new usage. -/
theorem quota_resets_exactly_at_boundary_witness :
    periodExceeded "monthly" ⟨2024, 1, 15, 0⟩ ⟨2024, 2, 16, 0⟩ = true ∧
    applyUsage
        { limitPeriod := "monthly", tokenUsed := 42,
          lastResetAt := ⟨2024, 1, 15, 0⟩ } ⟨2024, 2, 16, 0⟩ 7 =
      { limitPeriod := "monthly", tokenUsed := 7,
        lastResetAt := ⟨2024, 2, 16, 0⟩ } :=
  ⟨by decide,
    (quota_resets_exactly_at_boundary
      { limitPeriod := "monthly", tokenUsed := 42,
        lastResetAt := ⟨2024, 1, 15, 0⟩ } ⟨2024, 2, 16, 0⟩ 7).1 (by decide)⟩

/-- C7: a permitted admin's attempt to deactivate their own account
(`updateStatus` with `isActive` false and `userId = adminUserId`) or to
delete their own account answers 400 and leaves the store unchanged. -/
theorem self_ban_self_delete_rejected
    (perm : Perm) (txOk : Bool) (now : Int) (aid : String) (s : Store)
    (upd : PermissionsUpdate) (canShare : Option Bool)
    (ha : aid ≠ "") (hperm : perm aid "admin_panel" = true) :
    usersPATCH perm now
      { adminUserId := some aid, userId := some aid,
        action := some "updateStatus", isActive := some false,
        canShareAccessCode := canShare, permissionsUpdate := upd } s =
      (400, s) ∧
    usersDELETE perm txOk ⟨some aid, some aid⟩ s = (400, s) := by
  have ha2 : (aid == "") = false := by simp [ha]
  constructor
  · simp [usersPATCH, truthy, truthyBool, ha2, hperm]
  · simp [usersDELETE, truthy, ha2, hperm]

/-- Witness for C7 at a concrete admin id and store. -/
theorem self_ban_self_delete_rejected_witness :
    usersPATCH (fun _ _ => true) 0
      { adminUserId := some "u1", userId := some "u1",
        action := some "updateStatus", isActive := some false } sampleStore =
      (400, sampleStore) ∧
    usersDELETE (fun _ _ => true) true ⟨some "u1", some "u1"⟩ sampleStore =
      (400, sampleStore) :=
  self_ban_self_delete_rejected (fun _ _ => true) true 0 "u1" sampleStore
    {} none (by decide) rfl

/-- C4 counterexample: a permitted DELETE of a nonexistent invite code
answers 500, not the 404 the claim states — the source performs no
existence check and the store's record-not-found error reaches the generic
catch block. -/
theorem code_delete_missing_returns_500 :
    codesDELETE (fun _ _ => true)
      ⟨some "admin", some "c1", some "invite"⟩ ({} : Store) =
      (500, ({} : Store)) ∧ (500 : Nat) ≠ 404 := by
  constructor
  · decide
  · decide

/-- C4 as amended: a permitted DELETE of a nonexistent user answers 404 and
a permitted toggle PATCH of a nonexistent invite or access code answers
404, but a permitted DELETE of a nonexistent invite or access code answers
500; none of these mutates the store. -/
theorem missing_entity_statuses
    (perm : Perm) (txOk : Bool) (now : Int) (aid uid cid : String)
    (s : Store)
    (ha : aid ≠ "") (hu : uid ≠ "") (hc : cid ≠ "")
    (hperm : perm aid "admin_panel" = true) (hself : aid ≠ uid) :
    (s.users.any (fun u => u.id == uid) = false →
      usersDELETE perm txOk ⟨some aid, some uid⟩ s = (404, s)) ∧
    (s.inviteCodes.find? (fun c => c.id == cid) = none →
      codesPATCH perm now ⟨some aid, some cid, some "invite", some "toggle"⟩
        s = (404, s)) ∧
    (s.accessCodes.find? (fun c => c.id == cid) = none →
      codesPATCH perm now ⟨some aid, some cid, some "access", some "toggle"⟩
        s = (404, s)) ∧
    (s.inviteCodes.any (fun c => c.id == cid) = false →
      codesDELETE perm ⟨some aid, some cid, some "invite"⟩ s = (500, s)) ∧
    (s.accessCodes.any (fun c => c.id == cid) = false →
      codesDELETE perm ⟨some aid, some cid, some "access"⟩ s = (500, s)) := by
  have ha2 : (aid == "") = false := by simp [ha]
  have hu2 : (uid == "") = false := by simp [hu]
  have hc2 : (cid == "") = false := by simp [hc]
  have hself2 : ((some aid : Option String) == some uid) = false := by
    simp [hself]
  refine ⟨?_, ?_, ?_, ?_, ?_⟩ <;> intro h <;>
    simp [usersDELETE, codesPATCH, codesDELETE, truthy,
      ha2, hu2, hc2, hself2, hperm, h]

/-- Witness for the amended C4 on an empty store. -/
theorem missing_entity_statuses_witness :
    usersDELETE (fun _ _ => true) true ⟨some "admin", some "ghost"⟩
      ({} : Store) = (404, ({} : Store)) ∧
    codesPATCH (fun _ _ => true) 0
      ⟨some "admin", some "c9", some "invite", some "toggle"⟩ ({} : Store) =
      (404, ({} : Store)) ∧
    codesDELETE (fun _ _ => true) ⟨some "admin", some "c9", some "access"⟩
      ({} : Store) = (500, ({} : Store)) := by
  have h := missing_entity_statuses (fun _ _ => true) true 0 "admin" "ghost"
    "c9" ({} : Store) (by decide) (by decide) (by decide) rfl (by decide)
  exact ⟨h.1 (by decide), h.2.1 (by decide), h.2.2.2.2 (by decide)⟩

/-- C5 counterexample: toggling an invite code does not leave every other
field unchanged — the store's `@updatedAt` column advances, so the result
differs from the original row with only `isUsed` negated. -/
theorem toggle_changes_updatedAt :
    (codesPATCH (fun _ _ => true) 5
      ⟨some "admin", some "c1", some "invite", some "toggle"⟩
      { inviteCodes := [{ id := "c1", code := "fimai1",
                          createdBy := "u1" }] }).2.inviteCodes ≠
      [{ id := "c1", code := "fimai1", createdBy := "u1", isUsed := true }] := by
  decide

/-- C5 as amended: a permitted toggle PATCH on an existing code negates
exactly the targeted boolean (`isUsed` for invite, `isActive` for access)
and advances the auto-maintained `updatedAt` to the update time; every
other field of the row, and every other table, is unchanged. -/
theorem toggle_flips_exactly_target
    (perm : Perm) (now : Int) (aid cid : String) (s : Store)
    (c : InviteCode) (a : AccessCode)
    (ha : aid ≠ "") (hc : cid ≠ "")
    (hperm : perm aid "admin_panel" = true) :
    (s.inviteCodes.find? (fun x => x.id == cid) = some c →
      codesPATCH perm now ⟨some aid, some cid, some "invite", some "toggle"⟩
        s =
        (200, { s with inviteCodes := s.inviteCodes.map (fun x =>
          if x.id == cid then { x with isUsed := !c.isUsed, updatedAt := now }
          else x) }) ∧
      (∀ x : InviteCode,
        ((if x.id == cid then
            { x with isUsed := !c.isUsed, updatedAt := now }
          else x) : InviteCode).id = x.id ∧
        ((if x.id == cid then
            { x with isUsed := !c.isUsed, updatedAt := now }
          else x) : InviteCode).code = x.code ∧
        ((if x.id == cid then
            { x with isUsed := !c.isUsed, updatedAt := now }
          else x) : InviteCode).createdBy = x.createdBy ∧
        ((if x.id == cid then
            { x with isUsed := !c.isUsed, updatedAt := now }
          else x) : InviteCode).usedBy = x.usedBy ∧
        ((if x.id == cid then
            { x with isUsed := !c.isUsed, updatedAt := now }
          else x) : InviteCode).usedAt = x.usedAt ∧
        ((if x.id == cid then
            { x with isUsed := !c.isUsed, updatedAt := now }
          else x) : InviteCode).expiresAt = x.expiresAt ∧
        ((if x.id == cid then
            { x with isUsed := !c.isUsed, updatedAt := now }
          else x) : InviteCode).maxUses = x.maxUses ∧
        ((if x.id == cid then
            { x with isUsed := !c.isUsed, updatedAt := now }
          else x) : InviteCode).currentUses = x.currentUses ∧
        ((if x.id == cid then
            { x with isUsed := !c.isUsed, updatedAt := now }
          else x) : InviteCode).createdAt = x.createdAt)) ∧
    (s.accessCodes.find? (fun x => x.id == cid) = some a →
      codesPATCH perm now ⟨some aid, some cid, some "access", some "toggle"⟩
        s =
        (200, { s with accessCodes := s.accessCodes.map (fun x =>
          if x.id == cid then
            { x with isActive := !a.isActive, updatedAt := now }
          else x) }) ∧
      (∀ x : AccessCode,
        ((if x.id == cid then
            { x with isActive := !a.isActive, updatedAt := now }
          else x) : AccessCode).id = x.id ∧
        ((if x.id == cid then
            { x with isActive := !a.isActive, updatedAt := now }
          else x) : AccessCode).code = x.code ∧
        ((if x.id == cid then
            { x with isActive := !a.isActive, updatedAt := now }
          else x) : AccessCode).createdBy = x.createdBy ∧
        ((if x.id == cid then
            { x with isActive := !a.isActive, updatedAt := now }
          else x) : AccessCode).expiresAt = x.expiresAt ∧
        ((if x.id == cid then
            { x with isActive := !a.isActive, updatedAt := now }
          else x) : AccessCode).maxUses = x.maxUses ∧
        ((if x.id == cid then
            { x with isActive := !a.isActive, updatedAt := now }
          else x) : AccessCode).currentUses = x.currentUses ∧
        ((if x.id == cid then
            { x with isActive := !a.isActive, updatedAt := now }
          else x) : AccessCode).allowedModelIds = x.allowedModelIds ∧
        ((if x.id == cid then
            { x with isActive := !a.isActive, updatedAt := now }
          else x) : AccessCode).createdAt = x.createdAt)) := by
  have ha2 : (aid == "") = false := by simp [ha]
  have hc2 : (cid == "") = false := by simp [hc]
  constructor
  · intro hfind
    refine ⟨by simp [codesPATCH, truthy, ha2, hc2, hperm, hfind], ?_⟩
    intro x
    by_cases hx : (x.id == cid) = true <;> simp [hx]
  · intro hfind
    refine ⟨by simp [codesPATCH, truthy, ha2, hc2, hperm, hfind], ?_⟩
    intro x
    by_cases hx : (x.id == cid) = true <;> simp [hx]

/-- Witness for the amended C5: toggling the invite code `ic1` of the
sample store. -/
theorem toggle_flips_exactly_target_witness :
    codesPATCH (fun _ _ => true) 9
      ⟨some "admin", some "ic1", some "invite", some "toggle"⟩ sampleStore =
      (200, { sampleStore with inviteCodes := (sampleStore.inviteCodes.map
        (fun x => if x.id == "ic1" then
          { x with isUsed := true, updatedAt := 9 } else x)) }) ∧
    codesPATCH (fun _ _ => true) 9
      ⟨some "admin", some "ac1", some "access", some "toggle"⟩ sampleStore =
      (200, { sampleStore with accessCodes := (sampleStore.accessCodes.map
        (fun x => if x.id == "ac1" then
          { x with isActive := false, updatedAt := 9 } else x)) }) := by
  have h1 := (toggle_flips_exactly_target (fun _ _ => true) 9 "admin" "ic1"
    sampleStore { id := "ic1", code := "fimaiA", createdBy := "u2" }
    { id := "", code := "", createdBy := "" }
    (by decide) (by decide) rfl).1 (by decide)
  have h2 := (toggle_flips_exactly_target (fun _ _ => true) 9 "admin" "ac1"
    sampleStore { id := "", code := "", createdBy := "" }
    { id := "ac1", code := "fimaiC", createdBy := "u2" }
    (by decide) (by decide) rfl).2 (by decide)
  exact ⟨h1.1, h2.1⟩

/-- C2: a permitted DELETE of an existing, non-self user runs the
transaction that removes the user's messages, conversations, token-usage
rows, permission row, the invite and access codes the user created, and
the user row; when the transaction commits the result holds exactly the
rows not owned by the user (settings untouched by the transaction), and
when it fails nothing changes and the handler answers 500. -/
theorem delete_user_transactional_cascade
    (perm : Perm) (txOk : Bool) (aid uid : String) (s : Store)
    (ha : aid ≠ "") (hu : uid ≠ "") (hself : aid ≠ uid)
    (hperm : perm aid "admin_panel" = true)
    (hex : s.users.any (fun u => u.id == uid) = true) :
    (txOk = true →
      usersDELETE perm txOk ⟨some aid, some uid⟩ s =
        (200, txDeleteUser uid s) ∧
      (∀ m : Message, m ∈ (txDeleteUser uid s).messages ↔
        m ∈ s.messages ∧ ¬(m.userId = uid)) ∧
      (∀ c : Conversation, c ∈ (txDeleteUser uid s).conversations ↔
        c ∈ s.conversations ∧ ¬(c.userId = uid)) ∧
      (∀ t : TokenUsage, t ∈ (txDeleteUser uid s).tokenUsages ↔
        t ∈ s.tokenUsages ∧ ¬(t.userId = uid)) ∧
      (∀ p : UserPermission, p ∈ (txDeleteUser uid s).userPermissions ↔
        p ∈ s.userPermissions ∧ ¬(p.userId = uid)) ∧
      (∀ ic : InviteCode, ic ∈ (txDeleteUser uid s).inviteCodes ↔
        ic ∈ s.inviteCodes ∧ ¬(ic.createdBy = uid)) ∧
      (∀ ac : AccessCode, ac ∈ (txDeleteUser uid s).accessCodes ↔
        ac ∈ s.accessCodes ∧ ¬(ac.createdBy = uid)) ∧
      (∀ u : User, u ∈ (txDeleteUser uid s).users ↔
        u ∈ s.users ∧ ¬(u.id = uid)) ∧
      (txDeleteUser uid s).settings = s.settings) ∧
    (txOk = false →
      usersDELETE perm txOk ⟨some aid, some uid⟩ s = (500, s)) := by
  have ha2 : (aid == "") = false := by simp [ha]
  have hu2 : (uid == "") = false := by simp [hu]
  have hself2 : ((some aid : Option String) == some uid) = false := by
    simp [hself]
  constructor
  · intro htx
    refine ⟨by simp [usersDELETE, truthy, ha2, hu2, hself2, hperm, hex, htx],
      ?_, ?_, ?_, ?_, ?_, ?_, ?_, ?_⟩ <;>
      simp [txDeleteUser, List.mem_filter]
  · intro htx
    simp [usersDELETE, truthy, ha2, hu2, hself2, hperm, hex, htx]

/-- Witness for C2: deleting `u2` from the sample store. -/
theorem delete_user_transactional_cascade_witness :
    usersDELETE (fun _ _ => true) true ⟨some "u1", some "u2"⟩ sampleStore =
      (200, txDeleteUser "u2" sampleStore) ∧
    usersDELETE (fun _ _ => true) false ⟨some "u1", some "u2"⟩ sampleStore =
      (500, sampleStore) ∧
    txDeleteUser "u2" sampleStore =
      { users := [{ id := "u1" }]
        settings := [{ id := "s1", userId := "u2" }]
        userPermissions := [{ id := "p2", userId := "u1" }]
        conversations := [{ id := "cv2", userId := "u1" }]
        messages := [{ id := "m2", userId := "u1" }]
        tokenUsages := []
        inviteCodes := [{ id := "ic2", code := "fimaiB", createdBy := "u1" }]
        accessCodes := [] } := by
  have h1 := (delete_user_transactional_cascade (fun _ _ => true) true "u1"
    "u2" sampleStore (by decide) (by decide) (by decide) rfl (by decide)).1
    rfl
  have h2 := (delete_user_transactional_cascade (fun _ _ => true) false "u1"
    "u2" sampleStore (by decide) (by decide) (by decide) rfl (by decide)).2
    rfl
  exact ⟨h1.1, h2, by decide⟩

/-- C1: every admin endpoint (users GET/POST/PATCH/DELETE, codes
GET/POST/PATCH/DELETE, database-reset GET/POST), on a request that reaches
the `checkUserPermission(adminUserId, 'admin_panel')` check and is denied,
answers 403, mutates nothing, and executes no shell command. -/
theorem admin_endpoints_deny_403
    (perm : Perm) (aid : String)
    (ha : aid ≠ "") (hperm : perm aid "admin_panel" = false) :
    (∀ (req : UsersGetReq) (s : Store), req.adminUserId = some aid →
      usersGET perm req s = (403, [])) ∧
    (∀ (hash : String → String) (nu ns np : String) (now : Int)
        (req : UsersPostReq) (s : Store), req.adminUserId = some aid →
      truthy req.username = true → truthy req.password = true →
      usersPOST perm hash nu ns np now req s = (403, s)) ∧
    (∀ (now : Int) (req : UsersPatchReq) (s : Store),
      req.adminUserId = some aid → truthy req.userId = true →
      truthy req.action = true →
      usersPATCH perm now req s = (403, s)) ∧
    (∀ (txOk : Bool) (req : UsersDeleteReq) (s : Store),
      req.adminUserId = some aid → truthy req.userId = true →
      usersDELETE perm txOk req s = (403, s)) ∧
    (∀ (req : CodesGetReq) (s : Store), req.adminUserId = some aid →
      codesGET perm req s = (403, none)) ∧
    (∀ (gc nc : String) (now : Int) (req : CodesPostReq) (s : Store),
      req.adminUserId = some aid → truthy req.type = true →
      codesPOST perm gc nc now req s = (403, s)) ∧
    (∀ (req : CodesDeleteReq) (s : Store), req.adminUserId = some aid →
      truthy req.codeId = true → truthy req.type = true →
      codesDELETE perm req s = (403, s)) ∧
    (∀ (now : Int) (req : CodesPatchReq) (s : Store),
      req.adminUserId = some aid → truthy req.codeId = true →
      truthy req.type = true → truthy req.action = true →
      codesPATCH perm now req s = (403, s)) ∧
    (∀ (runCmd : String → Nat → ExecResult) (req : ResetPostReq),
      req.adminUserId = some aid →
      databaseResetPOST perm runCmd req = ((403, ResetBody.empty), [])) ∧
    databaseResetGET perm (some aid) = 403 := by
  have ha2 : (aid == "") = false := by simp [ha]
  refine ⟨?_, ?_, ?_, ?_, ?_, ?_, ?_, ?_, ?_, ?_⟩ <;>
    intros <;>
    simp_all [usersGET, usersPOST, usersPATCH, usersDELETE, codesGET,
      codesPOST, codesDELETE, codesPATCH, databaseResetPOST,
      databaseResetGET, truthy, ha2, hperm]

/-- Witness for C1: one denied concrete request per endpoint. -/
theorem admin_endpoints_deny_403_witness :
    usersGET (fun _ _ => false) { adminUserId := some "root" } sampleStore =
      (403, []) ∧
    usersPOST (fun _ _ => false) id "nu" "ns" "np" 0
      { adminUserId := some "root", username := some "alice",
        password := some "pw" } sampleStore = (403, sampleStore) ∧
    usersPATCH (fun _ _ => false) 0
      { adminUserId := some "root", userId := some "u2",
        action := some "updateStatus" } sampleStore = (403, sampleStore) ∧
    usersDELETE (fun _ _ => false) true ⟨some "root", some "u2"⟩
      sampleStore = (403, sampleStore) ∧
    codesGET (fun _ _ => false) { adminUserId := some "root" } sampleStore =
      (403, none) ∧
    codesPOST (fun _ _ => false) "fimaiZ" "icZ" 0
      ⟨some "root", some "invite", none, none, none⟩ sampleStore =
      (403, sampleStore) ∧
    codesDELETE (fun _ _ => false) ⟨some "root", some "ic1", some "invite"⟩
      sampleStore = (403, sampleStore) ∧
    codesPATCH (fun _ _ => false) 0
      ⟨some "root", some "ic1", some "invite", some "toggle"⟩ sampleStore =
      (403, sampleStore) ∧
    databaseResetPOST (fun _ _ => false) (fun _ _ => ExecResult.ok "" "")
      ⟨some "root", some "RESET DATABASE"⟩ = ((403, ResetBody.empty), []) ∧
    databaseResetGET (fun _ _ => false) (some "root") = 403 := by
  have h := admin_endpoints_deny_403 (fun _ _ => false) "root" (by decide)
    rfl
  exact ⟨h.1 _ _ rfl, h.2.1 id "nu" "ns" "np" 0 _ _ rfl (by decide)
      (by decide),
    h.2.2.1 0 _ _ rfl (by decide) (by decide),
    h.2.2.2.1 true _ _ rfl (by decide),
    h.2.2.2.2.1 _ _ rfl,
    h.2.2.2.2.2.1 "fimaiZ" "icZ" 0 _ _ rfl (by decide),
    h.2.2.2.2.2.2.1 _ _ rfl (by decide) (by decide),
    h.2.2.2.2.2.2.2.1 0 _ _ rfl (by decide) (by decide) (by decide),
    h.2.2.2.2.2.2.2.2.1 _ _ rfl,
    h.2.2.2.2.2.2.2.2.2⟩

end FimAI
